import Mathlib

/-!
Verification development for the `chat_exporter/chat_exporter.py` module of
DiscordChatExporterPy.  The module is integration glue over the Discord SDK
and an external `Transcript` builder.  We embed it shallowly: SDK objects
become structures, each operation becomes a function from its inputs (plus a
builder oracle, since `Transcript` is an external collaborator) to a trace of
observable actions together with an optional uncaught Python exception.
-/

namespace ChatExporter

/-- Python exceptions distinguished by the module's control flow. -/
inductive PyError where
  | typeError
  | indexError
  | valueError
  | attributeError
  | raised
deriving Repr, DecidableEq

/-- Observable actions performed by the module: SDK lookups, channel sends,
message deletions, file writes and console prints, in program order. -/
inductive Action where
  | getGuild (gid : Nat)
  | getChannel (gid : Nat) (cid : Nat)
  | sendEmbed (cid : Nat) (title : String)
  | sendTranscriptFile (cid : Nat) (filename : String)
  | deleteMessage (mid : Nat)
  | writeFile (path : String) (content : String)
  | printStderr
  | printLine (s : String)
deriving Repr, DecidableEq

/-- Model of `discord.Attachment`: the fields the module reads. -/
structure Attachment where
  filename : String
  url : String
deriving Repr, DecidableEq

/-- Model of `discord.Message`: the fields the module reads.  `attachments = none`
models a non-iterable/non-subscriptable attachments value, i.e. the case in
which `for f in m.attachments` or `message.attachments[0]` raises
`TypeError`. -/
structure Message where
  id : Nat
  created_at : Nat
  attachments : Option (List Attachment)
deriving Repr, DecidableEq

/-- Model of `discord.TextChannel`: the fields the module reads or writes.  The
`guild` field stores the id of the referenced guild object (Python stores an
object reference). -/
structure Channel where
  id : Nat
  name : String
  guild : Option Nat
  history : List Message
deriving Repr, DecidableEq

/-- Model of `discord.Guild`: the fields the module reads. -/
structure Guild where
  id : Nat
  channels : List Channel
deriving Repr, DecidableEq

/-- Model of `discord.Client`: guild lookup by id. -/
structure Client where
  guilds : List Guild
deriving Repr, DecidableEq

/-- Model of `Guild.get_channel`: channel lookup in the guild's cache, `None` when
absent. -/
def Guild.get_channel (g : Guild) (cid : Nat) : Option Channel :=
  g.channels.find? fun c => c.id == cid

/-- Model of `Client.get_guild`: guild lookup in the client's cache, `None` when
absent. -/
def Client.get_guild (c : Client) (gid : Nat) : Option Guild :=
  c.guilds.find? fun g => g.id == gid

/-- The object returned by the external `Transcript(...).export()` call: the
module only reads its `.html` attribute. -/
structure TranscriptResult where
  html : String
deriving Repr, DecidableEq

/-- The keyword arguments this module passes to the external
`Transcript(...)` constructor.  `bot` and `attachment_handler` are external
handles the glue merely forwards, modelled as present-or-absent tokens. -/
structure TranscriptArgs where
  channel : Channel
  limit : Option Nat
  messages : Option (List Message)
  pytz_timezone : String
  military_time : Bool
  fancy_times : Bool
  before : Option Nat
  after : Option Nat
  support_dev : Bool
  bot : Option Unit
  attachment_handler : Option Unit
deriving Repr, DecidableEq

/-- The builder oracle: the external `Transcript(...).export()` collaborator,
which either returns a result object or raises. -/
def Builder : Type := TranscriptArgs → Except Unit TranscriptResult

/-- Result of running one operation: its action trace and the uncaught
exception it ends with, if any. -/
structure Outcome where
  actions : List Action
  error : Option PyError
deriving Repr, DecidableEq

/-- The Python `in` operator on strings: substring containment. -/
def strContains (hay : String) (pat : String) : Bool :=
  decide (List.IsInfix pat.toList hay.toList)

/-- The `if guild: channel.guild = guild` prologue shared by `export`,
`raw_export` and the message-posting `quick_export` (a `discord.Guild`
object is always truthy). -/
def set_guild (channel : Channel) (guild : Option Guild) : Channel :=
  match guild with
  | some g => { channel with guild := some g.id }
  | none => channel

/-- Model of `export(channel, limit, tz_info, guild, bot, military_time, fancy_times,
before, after, support_dev, attachment_handler)`: mutates `channel.guild`
when a guild is given, calls the builder, and returns the `.html` string.
Returns the builder outcome paired with the channel object as the caller
sees it afterwards. -/
def export' (builder : Builder) (channel : Channel) (limit : Option Nat)
    (tz_info : String) (guild : Option Guild) (bot : Option Unit)
    (military_time : Bool) (fancy_times : Bool) (before : Option Nat)
    (after : Option Nat) (support_dev : Bool)
    (attachment_handler : Option Unit) : Except Unit String × Channel :=
  let ch := set_guild channel guild
  (Except.map TranscriptResult.html
    (builder (TranscriptArgs.mk ch limit none tz_info military_time
      fancy_times before after support_dev bot attachment_handler)), ch)

/-- Model of `raw_export(channel, messages, tz_info, guild, bot, military_time,
fancy_times, support_dev, attachment_handler)`: like `export'` but with a
caller-supplied message list, no limit and no time window. -/
def raw_export (builder : Builder) (channel : Channel)
    (messages : List Message) (tz_info : String) (guild : Option Guild)
    (bot : Option Unit) (military_time : Bool) (fancy_times : Bool)
    (support_dev : Bool) (attachment_handler : Option Unit) :
    Except Unit String × Channel :=
  let ch := set_guild channel guild
  (Except.map TranscriptResult.html
    (builder (TranscriptArgs.mk ch none (some messages) tz_info military_time
      fancy_times none none support_dev bot attachment_handler)), ch)

/-- The first (message-posting) `quick_export(channel, guild, bot)`
definition, lines 11-53: mutates `channel.guild`, builds a transcript with
fixed options, returns silently when the html is falsy (empty), otherwise
posts one message with an embed and the transcript file.  It has no
`try`/`except`, so a builder exception propagates. -/
def quick_export_v1 (builder : Builder) (channel : Channel)
    (guild : Option Guild) (bot : Option Unit) : Outcome × Channel :=
  let ch := set_guild channel guild
  match builder (TranscriptArgs.mk ch none none "UTC" true true none none
      true bot none) with
  | Except.error _ => (Outcome.mk [] (some PyError.raised), ch)
  | Except.ok r =>
    if r.html = "" then
      (Outcome.mk [] none, ch)
    else
      (Outcome.mk [Action.sendTranscriptFile ch.id
        ("transcript-" ++ ch.name ++ ".html")] none, ch)

/-- Model of `quick_link(channel, message)`: posts an embed whose description links
the first attachment's url through the hosted viewer.  Reading
`message.attachments[0]` raises before anything is sent when there is no
first attachment. -/
def quick_link (channel : Channel) (message : Message) : Outcome :=
  match message.attachments with
  | none => Outcome.mk [] (some PyError.typeError)
  | some [] => Outcome.mk [] (some PyError.indexError)
  | some (_ :: _) =>
    Outcome.mk [Action.sendEmbed channel.id "Transcript Link"] none

/-- Model of `link(message)`: returns the viewer url for the first attachment;
`message.attachments[0]` raises when there is no first attachment. -/
def link (message : Message) : Except PyError String :=
  match message.attachments with
  | none => Except.error PyError.typeError
  | some [] => Except.error PyError.indexError
  | some (a :: _) =>
    Except.ok ("https://mahto.id/chat-exporter?url=" ++ a.url)

/-- The cleanup loop shared by both string-id `quick_export` definitions:
`async for m in channel.history(limit=None)`, deleting `m` once per
attachment whose filename contains `transcript-{channel.name}.html`; a
`TypeError` (non-iterable attachments) is swallowed and the loop continues
with the next message. -/
def cleanupPass (channelName : String) (history : List Message) :
    List Action :=
  history.flatMap fun m =>
    match m.attachments with
    | none => []
    | some atts =>
      atts.flatMap fun f =>
        if strContains f.filename ("transcript-" ++ channelName ++ ".html")
        then [Action.deleteMessage m.id]
        else []

/-- Python `int(...)` applied to a string: a non-empty all-digit string
parses as a decimal number, anything else raises `ValueError` (the optional
sign and surrounding whitespace Python also accepts are not needed by any
claim). -/
def pyInt (s : String) : Option Nat :=
  if s.toList ≠ [] ∧ s.toList.all Char.isDigit then
    some (s.toList.foldl (fun n c => 10 * n + (c.toNat - 48)) 0)
  else none

/-- The console line both string-id `quick_export` definitions print after
posting the failure embed. -/
def githubLine : String :=
  "Please send a screenshot of the above error to " ++
    "https://www.github.com/mahtoid/DiscordChatExporterPy"

/-- The second `quick_export(channel, guild, ticket_id, client)` definition,
lines 170-203: resolves guild then channel from string ids, calls the old
`Transcript.export(channel, None, "Europe/London")` API (modelled by the
`builder2` oracle), on failure prints the traceback, posts one failure embed
and returns; on success deletes prior transcript messages and writes
`transcript.html` to the hardcoded path. -/
def quick_export_v2 (builder2 : Except Unit TranscriptResult)
    (channelStr : String) (guildStr : String) (ticketId : String)
    (client : Client) : Outcome :=
  match pyInt guildStr with
  | none => Outcome.mk [] (some PyError.valueError)
  | some gid =>
    match client.get_guild gid with
    | none => Outcome.mk [Action.getGuild gid] (some PyError.attributeError)
    | some g =>
      match pyInt channelStr with
      | none =>
        Outcome.mk [Action.getGuild gid] (some PyError.valueError)
      | some cid =>
        match g.get_channel cid with
        | none =>
          Outcome.mk [Action.getGuild gid, Action.getChannel g.id cid,
            Action.printStderr] (some PyError.attributeError)
        | some ch =>
          match builder2 with
          | Except.error _ =>
            Outcome.mk [Action.getGuild gid, Action.getChannel g.id cid,
              Action.printStderr,
              Action.sendEmbed ch.id "Transcript Generation Failed!",
              Action.printLine githubLine] none
          | Except.ok r =>
            Outcome.mk ([Action.getGuild gid, Action.getChannel g.id cid] ++
              cleanupPass ch.name ch.history ++
              [Action.writeFile ("/var/www/html/transcripts/transcript-" ++
                ch.name ++ "---" ++ ticketId ++ "---.html") r.html]) none

/-- The third `quick_export(channel, guild, ticket_id, client)` definition,
lines 205-238 (the one the module finally exports): resolves guild then
channel from string ids, calls `export(channel=channel, limit=10000,
guild=guild)`, on failure prints the traceback, posts one failure embed and
returns; on success deletes prior transcript messages and writes the
returned transcript string to the hardcoded path. -/
def quick_export_v3 (builder : Builder) (channelStr : String)
    (guildStr : String) (ticketId : String) (client : Client) : Outcome :=
  match pyInt guildStr with
  | none => Outcome.mk [] (some PyError.valueError)
  | some gid =>
    match client.get_guild gid with
    | none => Outcome.mk [Action.getGuild gid] (some PyError.attributeError)
    | some g =>
      match pyInt channelStr with
      | none =>
        Outcome.mk [Action.getGuild gid] (some PyError.valueError)
      | some cid =>
        match g.get_channel cid with
        | none =>
          Outcome.mk [Action.getGuild gid, Action.getChannel g.id cid,
            Action.printStderr] (some PyError.attributeError)
        | some ch =>
          let res := export' builder ch (some 10000) "UTC" (some g) none
            true true none none true none
          match res.1 with
          | Except.error _ =>
            Outcome.mk [Action.getGuild gid, Action.getChannel g.id cid,
              Action.printStderr,
              Action.sendEmbed res.2.id "Transcript Generation Failed!",
              Action.printLine githubLine] none
          | Except.ok transcript =>
            Outcome.mk ([Action.getGuild gid, Action.getChannel g.id cid] ++
              cleanupPass res.2.name res.2.history ++
              [Action.writeFile ("/var/www/html/transcripts/transcript-" ++
                res.2.name ++ "---" ++ ticketId ++ "---.html") transcript])
              none

/-- The distinct function bodies bound at the module's top level, in source
order. -/
inductive FnBody where
  | quickExportV1
  | exportFn
  | rawExportFn
  | quickLinkFn
  | quickExportV2
  | quickExportV3
  | linkFn
deriving Repr, DecidableEq

/-- The module's top-level `def` statements in source order: Python executes
them sequentially, each binding (or rebinding) its name in the module
namespace. -/
def moduleDefs : List (String × FnBody) :=
  [("quick_export", FnBody.quickExportV1),
   ("export", FnBody.exportFn),
   ("raw_export", FnBody.rawExportFn),
   ("quick_link", FnBody.quickLinkFn),
   ("quick_export", FnBody.quickExportV2),
   ("quick_export", FnBody.quickExportV3),
   ("link", FnBody.linkFn)]

/-- Looking a name up in the module namespace after all `def` statements
ran: the last binding of the name wins. -/
def moduleLookup (name : String) : Option FnBody :=
  moduleDefs.foldl (fun acc p => if p.1 = name then some p.2 else acc) none

/-- Modelled from the spec: the internal behaviour of the external
`Transcript` builder (`chat_exporter/construct/transcript.py`, not included
in the supplied source) on a `before`/`after` time window, per the spec's
message-fetching contract - messages strictly inside the window are kept,
and a window matching no messages yields an empty (falsy) html result. -/
def msgInWindow (before : Option Nat) (after : Option Nat)
    (m : Message) : Bool :=
  (match before with
   | none => true
   | some b => m.created_at < b) &&
  (match after with
   | none => true
   | some a => a < m.created_at)

/-- Modelled from the spec: a builder oracle refining the spec's sentence
that an empty time window "yields an empty or falsy transcript result".
When some message of the channel's history falls in the window it renders a
non-empty document listing the matched message ids; when none does, the
html is the empty string. -/
def specTranscriptExport : Builder := fun args =>
  let matched := args.channel.history.filter
    (msgInWindow args.before args.after)
  if matched.isEmpty then
    Except.ok (TranscriptResult.mk "")
  else
    Except.ok (TranscriptResult.mk ("<html>" ++
      String.intercalate "," (matched.map fun m => toString m.id) ++
      "</html>"))

/-- Classifier: the failure embed posted when the builder raises. -/
def isFailureEmbed : Action → Bool
  | Action.sendEmbed _ t => t = "Transcript Generation Failed!"
  | _ => false

/-- Classifier: a filesystem write. -/
def isWrite : Action → Bool
  | Action.writeFile _ _ => true
  | _ => false

/-- Classifier: a message deletion. -/
def isDelete : Action → Bool
  | Action.deleteMessage _ => true
  | _ => false

/-- Classifier: posting a transcript file to the channel. -/
def isSendFile : Action → Bool
  | Action.sendTranscriptFile _ _ => true
  | _ => false

theorem cleanupPass_all_deletes (n : String) (hist : List Message) :
    ∀ a ∈ cleanupPass n hist, isDelete a = true := by
  intro a ha
  simp only [cleanupPass, List.mem_flatMap] at ha
  obtain ⟨m, _, hm⟩ := ha
  cases hatt : m.attachments with
  | none => simp [hatt] at hm
  | some atts =>
    simp only [hatt, List.mem_flatMap] at hm
    obtain ⟨f, _, hf⟩ := hm
    by_cases hc :
        strContains f.filename ("transcript-" ++ n ++ ".html") = true
    · simp only [hc, if_pos, List.mem_singleton] at hf
      subst hf; rfl
    · simp [hc] at hf

theorem deleteMessage_mem_cleanupPass (n : String) (hist : List Message)
    (m : Message) (hm : m ∈ hist)
    (hnodup : (hist.map Message.id).Nodup) :
    Action.deleteMessage m.id ∈ cleanupPass n hist ↔
      ∃ atts, m.attachments = some atts ∧ ∃ f ∈ atts,
        strContains f.filename ("transcript-" ++ n ++ ".html") = true := by
  constructor
  · intro h
    simp only [cleanupPass, List.mem_flatMap] at h
    obtain ⟨m', hm', hmem⟩ := h
    cases hatt : m'.attachments with
    | none => simp [hatt] at hmem
    | some atts =>
      simp only [hatt, List.mem_flatMap] at hmem
      obtain ⟨f, hf, hfmem⟩ := hmem
      by_cases hc :
          strContains f.filename ("transcript-" ++ n ++ ".html") = true
      · simp only [hc, if_pos, List.mem_singleton, Action.deleteMessage.injEq]
          at hfmem
        have hmm : m' = m :=
          List.inj_on_of_nodup_map hnodup hm' hm hfmem.symm
        subst hmm
        exact ⟨atts, hatt, f, hf, hc⟩
      · simp [hc] at hfmem
  · rintro ⟨atts, hatt, f, hf, hc⟩
    simp only [cleanupPass, List.mem_flatMap]
    refine ⟨m, hm, ?_⟩
    simp only [hatt, List.mem_flatMap]
    exact ⟨f, hf, by simp [hc]⟩

/-- Concrete fixture: a channel named `support` with id 10 and an empty
history, inside guild 1 of a one-guild client. -/
def supportChannel : Channel := Channel.mk 10 "support" none []

def guild1 : Guild := Guild.mk 1 [supportChannel]

def client1 : Client := Client.mk [guild1]

/-- C4: for every message whose first attachment has url `u`, `link` returns
exactly the string `https://mahto.id/chat-exporter?url=` concatenated with
`u`. -/
theorem link_returns_viewer_url (m : Message) (a : Attachment)
    (rest : List Attachment) (h : m.attachments = some (a :: rest)) :
    link m = Except.ok ("https://mahto.id/chat-exporter?url=" ++ a.url) := by
  simp [link, h]

theorem link_returns_viewer_url_witness :
    (Message.mk 1 0 (some [Attachment.mk "a.html"
        "https://cdn.example.com/a.html"])).attachments =
      some [Attachment.mk "a.html" "https://cdn.example.com/a.html"] ∧
    link (Message.mk 1 0 (some [Attachment.mk "a.html"
        "https://cdn.example.com/a.html"])) =
      Except.ok
        "https://mahto.id/chat-exporter?url=https://cdn.example.com/a.html" :=
  ⟨rfl, link_returns_viewer_url
    (Message.mk 1 0 (some [Attachment.mk "a.html"
      "https://cdn.example.com/a.html"]))
    (Attachment.mk "a.html" "https://cdn.example.com/a.html") [] rfl⟩

/-- C8: `export`, `raw_export` and the message-posting `quick_export` set
the channel object's guild field to the supplied guild when one is given,
changing no other field, and leave the channel entirely unchanged when the
guild argument is `None`. -/
theorem guild_assignment_frame :
    (∀ builder channel limit tz guild bot mt ft b a sd ah,
      (export' builder channel limit tz guild bot mt ft b a sd ah).2 =
        set_guild channel guild) ∧
    (∀ builder channel msgs tz guild bot mt ft sd ah,
      (raw_export builder channel msgs tz guild bot mt ft sd ah).2 =
        set_guild channel guild) ∧
    (∀ builder channel guild bot,
      (quick_export_v1 builder channel guild bot).2 =
        set_guild channel guild) ∧
    (∀ channel g, (set_guild channel (some g)).guild = some g.id ∧
      (set_guild channel (some g)).id = channel.id ∧
      (set_guild channel (some g)).name = channel.name ∧
      (set_guild channel (some g)).history = channel.history) ∧
    (∀ channel, set_guild channel none = channel) := by
  refine ⟨fun _ _ _ _ _ _ _ _ _ _ _ _ => rfl,
    fun _ _ _ _ _ _ _ _ _ _ => rfl, ?_,
    fun _ _ => ⟨rfl, rfl, rfl, rfl⟩, fun _ => rfl⟩
  intro builder channel guild bot
  rcases h : builder (TranscriptArgs.mk (set_guild channel guild) none none
      "UTC" true true none none true bot none) with e | r
  · simp [quick_export_v1, h]
  · by_cases hh : r.html = "" <;> simp [quick_export_v1, h, hh]

/-- C9: `link` and `quick_link` read the message's first attachment without
a guard: with a non-empty attachments list both succeed, and with an empty
attachments list both raise `IndexError` before sending or returning
anything. -/
theorem first_attachment_access_unguarded (ch : Channel) (m : Message) :
    (∀ a rest, m.attachments = some (a :: rest) →
      link m = Except.ok ("https://mahto.id/chat-exporter?url=" ++ a.url) ∧
      quick_link ch m =
        Outcome.mk [Action.sendEmbed ch.id "Transcript Link"] none) ∧
    (m.attachments = some [] →
      link m = Except.error PyError.indexError ∧
      quick_link ch m = Outcome.mk [] (some PyError.indexError)) := by
  constructor
  · intro a rest h
    exact ⟨by simp [link, h], by simp [quick_link, h]⟩
  · intro h
    exact ⟨by simp [link, h], by simp [quick_link, h]⟩

theorem first_attachment_access_unguarded_witness :
    (link (Message.mk 1 0 (some [Attachment.mk "t.html" "u"])) =
        Except.ok ("https://mahto.id/chat-exporter?url=" ++ "u") ∧
      quick_link supportChannel
          (Message.mk 1 0 (some [Attachment.mk "t.html" "u"])) =
        Outcome.mk [Action.sendEmbed 10 "Transcript Link"] none) ∧
    (link (Message.mk 2 0 (some [])) = Except.error PyError.indexError ∧
      quick_link supportChannel (Message.mk 2 0 (some [])) =
        Outcome.mk [] (some PyError.indexError)) :=
  ⟨(first_attachment_access_unguarded supportChannel
      (Message.mk 1 0 (some [Attachment.mk "t.html" "u"]))).1 _ [] rfl,
   (first_attachment_access_unguarded supportChannel
      (Message.mk 2 0 (some []))).2 rfl⟩

/-- C10: the public name `quick_export` resolves to the last of the three
same-named definitions - the one that calls `export` with `limit=10000` and
writes the returned string to disk - so the bodies of the first two
definitions are unreachable through the public name.  The probe builder
below returns a marker string exactly when it receives `limit = 10000`, and
that marker is what lands in the written file. -/
theorem public_quick_export_is_last_binding :
    moduleLookup "quick_export" = some FnBody.quickExportV3 ∧
    moduleLookup "quick_export" ≠ some FnBody.quickExportV1 ∧
    moduleLookup "quick_export" ≠ some FnBody.quickExportV2 ∧
    (quick_export_v3
      (fun args => if args.limit = some 10000
        then Except.ok (TranscriptResult.mk "limit-was-10000")
        else Except.ok (TranscriptResult.mk "limit-was-other"))
      "10" "1" "42" client1).actions =
      [Action.getGuild 1, Action.getChannel 1 10,
       Action.writeFile
         "/var/www/html/transcripts/transcript-support---42---.html"
         "limit-was-10000"] := by
  exact ⟨by decide, by decide, by decide, by decide⟩

theorem set_guild_some_name (ch : Channel) (g : Guild) :
    (set_guild ch (some g)).name = ch.name := rfl

theorem set_guild_some_history (ch : Channel) (g : Guild) :
    (set_guild ch (some g)).history = ch.history := rfl

theorem cleanupPass_filter_not_delete (p : Action → Bool)
    (hp : ∀ mid, p (Action.deleteMessage mid) = false)
    (n : String) (hist : List Message) :
    (cleanupPass n hist).filter p = [] := by
  rw [List.filter_eq_nil_iff]
  intro a ha
  have hd := cleanupPass_all_deletes n hist a ha
  cases a <;> simp [isDelete] at hd
  simp [hp]

theorem mem_cleanupPass_source (n : String) (hist : List Message)
    (mid : Nat) (h : Action.deleteMessage mid ∈ cleanupPass n hist) :
    ∃ m' ∈ hist, m'.id = mid := by
  simp only [cleanupPass, List.mem_flatMap] at h
  obtain ⟨m', hm', hmem⟩ := h
  refine ⟨m', hm', ?_⟩
  cases hatt : m'.attachments with
  | none => simp [hatt] at hmem
  | some atts =>
    simp only [hatt, List.mem_flatMap] at hmem
    obtain ⟨f, hf, hfmem⟩ := hmem
    by_cases hc :
        strContains f.filename ("transcript-" ++ n ++ ".html") = true
    · simp only [hc, if_pos, List.mem_singleton,
        Action.deleteMessage.injEq] at hfmem
      exact hfmem.symm
    · simp [hc] at hfmem

/-- C1: when the transcript builder raises inside the disk-writing
`quick_export`, the operation sends exactly one
`Transcript Generation Failed!` embed and returns normally, writing no
file, deleting no message and posting nothing else to the channel. -/
theorem quick_export_v3_builder_failure_sends_one_embed
    (builder : Builder) (channelStr guildStr ticketId : String)
    (client : Client) (gid cid : Nat) (g : Guild) (ch : Channel)
    (hgid : pyInt guildStr = some gid)
    (hcid : pyInt channelStr = some cid)
    (hg : client.get_guild gid = some g)
    (hch : g.get_channel cid = some ch)
    (hfail : builder (TranscriptArgs.mk (set_guild ch (some g)) (some 10000)
      none "UTC" true true none none true none none) = Except.error ()) :
    ((quick_export_v3 builder channelStr guildStr ticketId
        client).actions.countP isFailureEmbed = 1) ∧
    ((quick_export_v3 builder channelStr guildStr ticketId
        client).actions.countP isWrite = 0) ∧
    ((quick_export_v3 builder channelStr guildStr ticketId
        client).actions.countP isDelete = 0) ∧
    ((quick_export_v3 builder channelStr guildStr ticketId
        client).actions.countP isSendFile = 0) ∧
    (quick_export_v3 builder channelStr guildStr ticketId
        client).error = none := by
  have hout : quick_export_v3 builder channelStr guildStr ticketId client =
      Outcome.mk [Action.getGuild gid, Action.getChannel g.id cid,
        Action.printStderr,
        Action.sendEmbed (set_guild ch (some g)).id
          "Transcript Generation Failed!",
        Action.printLine githubLine] none := by
    simp [quick_export_v3, hgid, hcid, hg, hch, export', hfail, Except.map]
  rw [hout]
  refine ⟨?_, ?_, ?_, ?_, rfl⟩ <;>
    simp [List.countP_cons, isFailureEmbed, isWrite, isDelete, isSendFile]

theorem quick_export_v3_builder_failure_sends_one_embed_witness :
    ((quick_export_v3 (fun _ => Except.error ()) "10" "1" "42"
        client1).actions.countP isFailureEmbed = 1) ∧
    ((quick_export_v3 (fun _ => Except.error ()) "10" "1" "42"
        client1).actions.countP isWrite = 0) ∧
    ((quick_export_v3 (fun _ => Except.error ()) "10" "1" "42"
        client1).actions.countP isDelete = 0) ∧
    ((quick_export_v3 (fun _ => Except.error ()) "10" "1" "42"
        client1).actions.countP isSendFile = 0) ∧
    (quick_export_v3 (fun _ => Except.error ()) "10" "1" "42"
        client1).error = none :=
  quick_export_v3_builder_failure_sends_one_embed
    (fun _ => Except.error ()) "10" "1" "42" client1 1 10 guild1
    supportChannel rfl rfl rfl rfl rfl

/-- C2: when the transcript builder succeeds inside the disk-writing
`quick_export`, exactly one file is written and its path is the hardcoded
pattern `/var/www/html/transcripts/transcript-{channel-name}---{ticket-id}---.html`. -/
theorem quick_export_v3_success_writes_single_file
    (builder : Builder) (channelStr guildStr ticketId : String)
    (client : Client) (gid cid : Nat) (g : Guild) (ch : Channel)
    (r : TranscriptResult)
    (hgid : pyInt guildStr = some gid)
    (hcid : pyInt channelStr = some cid)
    (hg : client.get_guild gid = some g)
    (hch : g.get_channel cid = some ch)
    (hok : builder (TranscriptArgs.mk (set_guild ch (some g)) (some 10000)
      none "UTC" true true none none true none none) = Except.ok r) :
    (quick_export_v3 builder channelStr guildStr ticketId
        client).actions.filter isWrite =
      [Action.writeFile ("/var/www/html/transcripts/transcript-" ++
        ch.name ++ "---" ++ ticketId ++ "---.html") r.html] ∧
    (quick_export_v3 builder channelStr guildStr ticketId
        client).error = none := by
  have hout : quick_export_v3 builder channelStr guildStr ticketId client =
      Outcome.mk ([Action.getGuild gid, Action.getChannel g.id cid] ++
        cleanupPass ch.name ch.history ++
        [Action.writeFile ("/var/www/html/transcripts/transcript-" ++
          ch.name ++ "---" ++ ticketId ++ "---.html") r.html]) none := by
    simp [quick_export_v3, hgid, hcid, hg, hch, export', hok, Except.map,
      set_guild_some_name, set_guild_some_history]
  rw [hout]
  refine ⟨?_, rfl⟩
  simp only [List.filter_append,
    cleanupPass_filter_not_delete isWrite (fun _ => rfl) ch.name ch.history]
  simp [isWrite]

theorem quick_export_v3_success_writes_single_file_witness :
    ((quick_export_v3 (fun _ => Except.ok (TranscriptResult.mk "<html/>"))
        "10" "1" "42" client1).actions.filter isWrite =
      [Action.writeFile
        "/var/www/html/transcripts/transcript-support---42---.html"
        "<html/>"] ∧
    (quick_export_v3 (fun _ => Except.ok (TranscriptResult.mk "<html/>"))
        "10" "1" "42" client1).error = none) ∧
    ("transcript-support---42---.html".toList).isSuffixOf
      ("/var/www/html/transcripts/transcript-support---42---.html".toList) =
      true :=
  ⟨quick_export_v3_success_writes_single_file
      (fun _ => Except.ok (TranscriptResult.mk "<html/>")) "10" "1" "42"
      client1 1 10 guild1 supportChannel (TranscriptResult.mk "<html/>")
      rfl rfl rfl rfl rfl,
    by decide⟩

/-- C5: the disk-writing `quick_export` performs the guild lookup before
the channel lookup, and the channel lookup runs on the guild that lookup
returned: the first two actions of every valid run are `getGuild gid`
followed by `getChannel g.id cid` for the resolved guild `g`. -/
theorem quick_export_v3_guild_resolved_before_channel
    (builder : Builder) (channelStr guildStr ticketId : String)
    (client : Client) (gid cid : Nat) (g : Guild) (ch : Channel)
    (hgid : pyInt guildStr = some gid)
    (hcid : pyInt channelStr = some cid)
    (hg : client.get_guild gid = some g)
    (hch : g.get_channel cid = some ch) :
    (quick_export_v3 builder channelStr guildStr ticketId
        client).actions.take 2 =
      [Action.getGuild gid, Action.getChannel g.id cid] := by
  rcases hb : builder (TranscriptArgs.mk (set_guild ch (some g)) (some 10000)
      none "UTC" true true none none true none none) with e | r <;>
    simp [quick_export_v3, hgid, hcid, hg, hch, export', hb, Except.map]

theorem quick_export_v3_guild_resolved_before_channel_witness :
    (quick_export_v3 (fun _ => Except.ok (TranscriptResult.mk "t"))
        "10" "1" "42" client1).actions.take 2 =
      [Action.getGuild 1, Action.getChannel 1 10] :=
  quick_export_v3_guild_resolved_before_channel
    (fun _ => Except.ok (TranscriptResult.mk "t")) "10" "1" "42" client1
    1 10 guild1 supportChannel rfl rfl rfl rfl

/-- C3: in a successful disk-writing `quick_export` run over a history
with distinct message ids, a historical message is deleted if and only if
some attachment of it has a filename containing the exact substring
`transcript-{channel.name}.html`; every message whose attachments all lack
that substring is left untouched. -/
theorem quick_export_v3_deletes_iff_matching_attachment
    (builder : Builder) (channelStr guildStr ticketId : String)
    (client : Client) (gid cid : Nat) (g : Guild) (ch : Channel)
    (r : TranscriptResult)
    (hgid : pyInt guildStr = some gid)
    (hcid : pyInt channelStr = some cid)
    (hg : client.get_guild gid = some g)
    (hch : g.get_channel cid = some ch)
    (hok : builder (TranscriptArgs.mk (set_guild ch (some g)) (some 10000)
      none "UTC" true true none none true none none) = Except.ok r)
    (hnodup : (ch.history.map Message.id).Nodup)
    (m : Message) (hm : m ∈ ch.history) :
    (Action.deleteMessage m.id ∈
        (quick_export_v3 builder channelStr guildStr ticketId
          client).actions) ↔
      ∃ atts, m.attachments = some atts ∧ ∃ f ∈ atts,
        strContains f.filename
          ("transcript-" ++ ch.name ++ ".html") = true := by
  have hout : quick_export_v3 builder channelStr guildStr ticketId client =
      Outcome.mk ([Action.getGuild gid, Action.getChannel g.id cid] ++
        cleanupPass ch.name ch.history ++
        [Action.writeFile ("/var/www/html/transcripts/transcript-" ++
          ch.name ++ "---" ++ ticketId ++ "---.html") r.html]) none := by
    simp [quick_export_v3, hgid, hcid, hg, hch, export', hok, Except.map,
      set_guild_some_name, set_guild_some_history]
  rw [hout, ← deleteMessage_mem_cleanupPass ch.name ch.history m hm hnodup]
  simp [List.mem_append]

theorem quick_export_v3_deletes_iff_matching_attachment_witness :
    (Action.deleteMessage 7 ∈
      (quick_export_v3 (fun _ => Except.ok (TranscriptResult.mk "t"))
        "20" "2" "9" (Client.mk [Guild.mk 2 [Channel.mk 20 "help" none
          [Message.mk 7 0 (some [Attachment.mk
            "transcript-help.html" "u"])]]])).actions) ↔
      ∃ atts, (Message.mk 7 0 (some [Attachment.mk
          "transcript-help.html" "u"])).attachments = some atts ∧
        ∃ f ∈ atts, strContains f.filename
          ("transcript-" ++ "help" ++ ".html") = true :=
  quick_export_v3_deletes_iff_matching_attachment
    (fun _ => Except.ok (TranscriptResult.mk "t")) "20" "2" "9"
    (Client.mk [Guild.mk 2 [Channel.mk 20 "help" none
      [Message.mk 7 0 (some [Attachment.mk "transcript-help.html" "u"])]]])
    2 20
    (Guild.mk 2 [Channel.mk 20 "help" none
      [Message.mk 7 0 (some [Attachment.mk "transcript-help.html" "u"])]])
    (Channel.mk 20 "help" none
      [Message.mk 7 0 (some [Attachment.mk "transcript-help.html" "u"])])
    (TranscriptResult.mk "t") rfl rfl rfl rfl rfl (by decide)
    (Message.mk 7 0 (some [Attachment.mk "transcript-help.html" "u"]))
    (by decide)

/-- C6: a `TypeError` raised while inspecting a historical message's
attachments during the cleanup pass is swallowed: the offending message is
skipped without being deleted, the pass emits no diagnostics (its actions
are deletions only), and the iteration continues over the remaining
messages exactly as if the offending message were absent. -/
theorem cleanup_type_error_swallowed (n : String)
    (pre post : List Message) (m : Message)
    (hty : m.attachments = none)
    (hfresh : ∀ m' ∈ pre ++ post, m'.id ≠ m.id) :
    cleanupPass n (pre ++ m :: post) =
        cleanupPass n pre ++ cleanupPass n post ∧
    Action.deleteMessage m.id ∉ cleanupPass n (pre ++ m :: post) ∧
    (∀ a ∈ cleanupPass n (pre ++ m :: post), isDelete a = true) := by
  have heq : cleanupPass n (pre ++ m :: post) =
      cleanupPass n pre ++ cleanupPass n post := by
    simp [cleanupPass, List.flatMap_append, List.flatMap_cons, hty]
  refine ⟨heq, ?_, cleanupPass_all_deletes n _⟩
  rw [heq]
  intro hmem
  rcases List.mem_append.mp hmem with h | h
  · obtain ⟨m', hm', hid⟩ := mem_cleanupPass_source n pre m.id h
    exact hfresh m' (List.mem_append.mpr (Or.inl hm')) hid
  · obtain ⟨m', hm', hid⟩ := mem_cleanupPass_source n post m.id h
    exact hfresh m' (List.mem_append.mpr (Or.inr hm')) hid

theorem cleanup_type_error_swallowed_witness :
    (cleanupPass "support"
        ([Message.mk 1 0 (some [Attachment.mk "transcript-support.html"
            "u1"])] ++ Message.mk 2 0 none ::
          [Message.mk 3 0 (some [Attachment.mk "cat.png" "u3"])]) =
      cleanupPass "support"
        [Message.mk 1 0 (some [Attachment.mk "transcript-support.html"
          "u1"])] ++
      cleanupPass "support"
        [Message.mk 3 0 (some [Attachment.mk "cat.png" "u3"])]) ∧
    Action.deleteMessage 2 ∉ cleanupPass "support"
        ([Message.mk 1 0 (some [Attachment.mk "transcript-support.html"
            "u1"])] ++ Message.mk 2 0 none ::
          [Message.mk 3 0 (some [Attachment.mk "cat.png" "u3"])]) ∧
    (∀ a ∈ cleanupPass "support"
        ([Message.mk 1 0 (some [Attachment.mk "transcript-support.html"
            "u1"])] ++ Message.mk 2 0 none ::
          [Message.mk 3 0 (some [Attachment.mk "cat.png" "u3"])]),
      isDelete a = true) :=
  cleanup_type_error_swallowed "support"
    [Message.mk 1 0 (some [Attachment.mk "transcript-support.html" "u1"])]
    [Message.mk 3 0 (some [Attachment.mk "cat.png" "u3"])]
    (Message.mk 2 0 none) rfl (by decide)

/-- C7 counterexample: with the spec-modelled builder, channel 10 of guild
1 has an empty history, so the `before=None`/`after=None` window matches no
messages and the transcript is the falsy empty string - yet the
disk-writing `quick_export` still writes a file, so not every caller
handles the falsy result by not writing. -/
theorem quick_export_v3_writes_file_on_empty_transcript :
    specTranscriptExport (TranscriptArgs.mk
        (set_guild supportChannel (some guild1)) (some 10000) none "UTC"
        true true none none true none none) =
      Except.ok (TranscriptResult.mk "") ∧
    (quick_export_v3 specTranscriptExport "10" "1" "42" client1).actions =
      [Action.getGuild 1, Action.getChannel 1 10,
       Action.writeFile
         "/var/www/html/transcripts/transcript-support---42---.html" ""] :=
  ⟨rfl, by decide⟩

/-- C7 (amended): a time window matching no messages yields the falsy
empty transcript from the spec-modelled builder; the message-posting
`quick_export` handles that by posting nothing, but the disk-writing
`quick_export` does not - it writes the empty transcript file regardless. -/
theorem transcript_empty_window_caller_behaviour :
    (∀ args : TranscriptArgs,
      args.channel.history.filter (msgInWindow args.before args.after) =
        [] →
      specTranscriptExport args = Except.ok (TranscriptResult.mk "")) ∧
    (∀ channel guild bot, (set_guild channel guild).history = [] →
      (quick_export_v1 specTranscriptExport channel guild bot).1 =
        Outcome.mk [] none) ∧
    (∀ channelStr guildStr ticketId client gid cid g ch,
      pyInt guildStr = some gid → pyInt channelStr = some cid →
      Client.get_guild client gid = some g →
      Guild.get_channel g cid = some ch → ch.history = [] →
      (quick_export_v3 specTranscriptExport channelStr guildStr ticketId
          client).actions.filter isWrite =
        [Action.writeFile ("/var/www/html/transcripts/transcript-" ++
          ch.name ++ "---" ++ ticketId ++ "---.html") ""]) := by
  refine ⟨?_, ?_, ?_⟩
  · intro args h
    simp [specTranscriptExport, h]
  · intro channel guild bot h
    simp [quick_export_v1, specTranscriptExport, h]
  · intro channelStr guildStr ticketId client gid cid g ch hgid hcid hg hch
      hhist
    have hok : specTranscriptExport (TranscriptArgs.mk
        (set_guild ch (some g)) (some 10000) none "UTC" true true none none
        true none none) = Except.ok (TranscriptResult.mk "") := by
      simp [specTranscriptExport, set_guild_some_history, hhist]
    have hout : quick_export_v3 specTranscriptExport channelStr guildStr
        ticketId client =
        Outcome.mk ([Action.getGuild gid, Action.getChannel g.id cid] ++
          cleanupPass ch.name ch.history ++
          [Action.writeFile ("/var/www/html/transcripts/transcript-" ++
            ch.name ++ "---" ++ ticketId ++ "---.html") ""]) none := by
      simp [quick_export_v3, hgid, hcid, hg, hch, export', hok, Except.map,
        set_guild_some_name, set_guild_some_history]
    rw [hout]
    simp only [List.filter_append,
      cleanupPass_filter_not_delete isWrite (fun _ => rfl) ch.name
        ch.history]
    simp [isWrite]

theorem transcript_empty_window_caller_behaviour_witness :
    specTranscriptExport (TranscriptArgs.mk supportChannel none none "UTC"
        true true none none true none none) =
      Except.ok (TranscriptResult.mk "") ∧
    (quick_export_v1 specTranscriptExport supportChannel (some guild1)
        none).1 = Outcome.mk [] none ∧
    (quick_export_v3 specTranscriptExport "10" "1" "42"
        client1).actions.filter isWrite =
      [Action.writeFile
        "/var/www/html/transcripts/transcript-support---42---.html" ""] :=
  ⟨transcript_empty_window_caller_behaviour.1
      (TranscriptArgs.mk supportChannel none none "UTC" true true none none
        true none none) rfl,
   transcript_empty_window_caller_behaviour.2.1 supportChannel (some guild1)
      none rfl,
   transcript_empty_window_caller_behaviour.2.2 "10" "1" "42" client1 1 10
      guild1 supportChannel rfl rfl rfl rfl rfl⟩

end ChatExporter
